import Mathlib

/-!
Shallow embedding of the ts_init repository: the directive-building macros
(env_filter_directive, crate_env), the filter resolution
(env_filter_with_default in layer.rs and the inline resolution in
init_logging), the legacy sink composer init_logging, and the composable
surface (try_init, with_file, with_journald, FileMakeWriter).

External effects are made explicit: the process environment, the grammar of
the underlying EnvFilter parser, journald reachability and file openability
are bundled in a LibEnv record; the process-wide subscriber slot is passed
as an explicit Option Backend; a Rust panic is the panic constructor of
PanicOr.
-/

/-- Model of a tracing_subscriber EnvFilter value: an opaque parsed filter,
identified by the directive string it was built from. -/
structure EnvFilter where
  directive : String
deriving DecidableEq, Repr

/-- Ambient process state read by the code: the RUST_LOG variable, which
directive strings the EnvFilter grammar accepts (the grammar lives in
tracing_subscriber and is kept abstract here), whether the journald socket
is reachable, and which file paths can be opened for appending. -/
structure LibEnv where
  rustLog : Option String
  valid : String → Bool
  journaldAvailable : Bool
  fileOpenable : String → Bool

/-- Outcome of a Rust computation that may panic. -/
inductive PanicOr (α : Type) where
  | panic (msg : String)
  | ok (a : α)
deriving DecidableEq, Repr

/-- True exactly on the panic outcome. -/
def PanicOr.isPanic {α : Type} : PanicOr α → Bool
  | .panic _ => true
  | .ok _ => false

theorem PanicOr.isPanic_panic {α : Type} (m : String) :
    (PanicOr.panic (α := α) m).isPanic = true := rfl

theorem PanicOr.isPanic_ok {α : Type} (a : α) :
    (PanicOr.ok a).isPanic = false := rfl

/-- Model of the std fs OpenOptions flags the code sets. -/
structure OpenOptions where
  append : Bool
  create : Bool
  truncate : Bool
deriving DecidableEq, Repr

/-- Options used by both the nested fn file_appender
(File::options().append(true).create(true)) and FileMakeWriter::make_writer
(OpenOptions::new().create(true).append(true)): append and create set,
truncate left at its false default. -/
def appendOpts : OpenOptions := { append := true, create := true, truncate := false }

/-- An opened file handle: the path and the options it was opened with. -/
structure FileHandle where
  path : String
  opts : OpenOptions
deriving DecidableEq, Repr

/-- Model of ts_init's FileMakeWriter: stores a path and opens it anew on
each write. -/
structure FileMakeWriter where
  path : String
deriving DecidableEq, Repr

/-- One layer of a composed subscriber: an fmt sink writing to stderr, an
fmt sink writing to an opened file, an fmt sink writing through a
FileMakeWriter, the journald layer, or a layered EnvFilter. -/
inductive Layer where
  | fmtStderr (ansi : Bool) (filter : Option EnvFilter)
  | fmtFile (path : String) (opts : OpenOptions) (ansi : Bool) (filter : Option EnvFilter)
  | fmtFileWriter (w : FileMakeWriter) (ansi : Bool)
  | journald
  | envFilterLayer (f : EnvFilter)
deriving DecidableEq, Repr

/-- True on the stderr fmt sink. -/
def Layer.isStderr : Layer → Bool
  | .fmtStderr _ _ => true
  | _ => false

/-- A composed logging backend: its layers, innermost first. -/
abbrev Backend := List Layer

/-- Whether any layer of the backend is a stderr sink. -/
def hasStderrSink (b : Backend) : Bool := b.any Layer.isStderr

/-- Model of EnvFilter::try_from_default_env: reads RUST_LOG and parses it
strictly; the error case (here: none) covers both an unset variable and a
value the grammar rejects. -/
def try_from_default_env (E : LibEnv) : Option EnvFilter :=
  match E.rustLog with
  | none => none
  | some s => if E.valid s then some ⟨s⟩ else none

/-- Model of EnvFilter::builder().parse(s): strict parse, none on failure. -/
def envFilterParse (E : LibEnv) (s : String) : Option EnvFilter :=
  if E.valid s then some ⟨s⟩ else none

/-- Model of EnvFilter::new(s): lossy construction that ignores invalid
directives instead of failing, modelled at whole-string granularity: an
accepted string yields its filter, a rejected one the default empty
filter. -/
def envFilterNew (E : LibEnv) (s : String) : EnvFilter :=
  if E.valid s then ⟨s⟩ else ⟨""⟩

/-- Model of tracing_journald::layer(): Ok when the journald socket is
reachable, Err otherwise. -/
def tracing_journald_layer (E : LibEnv) : Except String Layer :=
  if E.journaldAvailable then .ok .journald else .error "journald socket not available"

/-- The typed error of a failed global installation (tracing's
SetGlobalDefaultError / TryInitError). -/
inductive TryInitError where
  | alreadyInstalled
deriving DecidableEq, Repr

/-- Model of tracing's set_global_default over an explicit process-wide
slot: installs into an empty slot; an attempt on an occupied slot errors
and leaves the slot unchanged. Returns the new slot and the typed
outcome. -/
def set_global_default (slot : Option Backend) (b : Backend) :
    Option Backend × Except TryInitError Unit :=
  match slot with
  | none => (some b, .ok ())
  | some old => (some old, .error .alreadyInstalled)

/-- The set_global_default(..).unwrap() pattern of the legacy init_logging:
panics when the slot is already occupied. -/
def installOrPanic (slot : Option Backend) (b : Backend) : PanicOr Backend :=
  match (set_global_default slot b).2 with
  | .ok _ => .ok b
  | .error _ => .panic "set_global_default failed"

/-- env_filter_with_default of layer.rs:
EnvFilter::try_from_default_env().unwrap_or_else(EnvFilter::new(default_env)).
Total: an invalid default degrades through the lossy EnvFilter::new. -/
def env_filter_with_default (E : LibEnv) (default_env : String) : EnvFilter :=
  match try_from_default_env E with
  | some f => f
  | none => envFilterNew E default_env

/-- The filter expression inside init_logging:
EnvFilter::try_from_default_env().unwrap_or_else(parse(default_env).unwrap());
the unwrap on the strict parse panics when the default is invalid. -/
def resolveEnvFilter (E : LibEnv) (default_env : String) : PanicOr EnvFilter :=
  match try_from_default_env E with
  | some f => .ok f
  | none =>
    match envFilterParse E default_env with
    | some f => .ok f
    | none => .panic "invalid filter directive"

/-- The nested fn file_appender of init_logging: opens the path with append
and create set, panicking when the open fails. -/
def file_appender (E : LibEnv) (path : String) : PanicOr FileHandle :=
  if E.fileOpenable path then .ok { path := path, opts := appendOpts }
  else .panic (path ++ ": open failed")

/-- init_logging (textually identical in src/src/lib.rs and
crates/ts_init/src/lib.rs): the filter is resolved first, in the builder
expression for the base stderr subscriber; only then does the code branch
on the outputs list and install the composed backend with
set_global_default(..).unwrap(). On success the installed backend is
returned. -/
def init_logging (E : LibEnv) (slot : Option Backend)
    (outputs : List (Option String)) (env : String) : PanicOr Backend :=
  match resolveEnvFilter E env with
  | .panic m => .panic m
  | .ok f =>
    match outputs with
    | [] => installOrPanic slot [Layer.fmtStderr true (some f)]
    | [none] => installOrPanic slot [Layer.fmtStderr true (some f)]
    | [some p] =>
      if p = "journald" then
        match tracing_journald_layer E with
        | .error m => .panic m
        | .ok l => installOrPanic slot [l]
      else
        match file_appender E p with
        | .panic m => .panic m
        | .ok h => installOrPanic slot [Layer.fmtFile h.path h.opts false (some f)]
    | [none, some p] =>
      if p = "journald" then
        match tracing_journald_layer E with
        | .error m => .panic m
        | .ok l => installOrPanic slot [Layer.fmtStderr true (some f), l]
      else
        match file_appender E p with
        | .panic m => .panic m
        | .ok h =>
            installOrPanic slot
              [Layer.fmtStderr true (some f), Layer.fmtFile h.path h.opts false none]
    | [_, _] => .panic "Invalid output"
    | _ => .panic "Too many outputs"

/-- The backend composed by try_init: builder().finish() — an fmt subscriber
writing to stderr, ansi on, no EnvFilter of its own — wrapped by
with_env_filter_or's EnvFilter layer. -/
def try_init_backend (E : LibEnv) (default_env : String) : Backend :=
  [Layer.fmtStderr true none, Layer.envFilterLayer (env_filter_with_default E default_env)]

/-- try_init of crates/ts_init/src/lib.rs: builds the backend and attempts
one-shot global installation, returning the typed outcome. -/
def try_init (E : LibEnv) (slot : Option Backend) (default_env : String) :
    Option Backend × Except TryInitError Unit :=
  set_global_default slot (try_init_backend E default_env)

/-- TiSubscriberExt::with_journald: layers
tracing_journald::layer().unwrap() onto the subscriber — the unwrap panics
when layer construction fails. -/
def with_journald (E : LibEnv) (self : Backend) : PanicOr Backend :=
  match tracing_journald_layer E with
  | .ok l => .ok (self ++ [l])
  | .error m => .panic m

/-- TiSubscriberExt::with_file: layers an fmt layer with ansi disabled and a
FileMakeWriter for the path; no file is opened at composition time. -/
def with_file (self : Backend) (path : String) : Backend :=
  self ++ [Layer.fmtFileWriter { path := path } false]

/-- FileMakeWriter::make_writer: opens the stored path with create and
append set, panicking (via expect) when the open fails. -/
def FileMakeWriter.make_writer (E : LibEnv) (w : FileMakeWriter) : PanicOr FileHandle :=
  if E.fileOpenable w.path then .ok { path := w.path, opts := appendOpts }
  else .panic "unable to open log file"

/-- Character-wise model of Rust str::replace with the one-character pattern
('-', after which every dash becomes an underscore). -/
def replaceDash (s : String) : String :=
  ⟨s.data.map (fun c => if c = '-' then '_' else c)⟩

/-- Body of the env_filter_directive proc macro: level from the string
literal, pkg from CARGO_PKG_NAME, bin from CARGO_BIN_NAME falling back to
pkg when unset; no character substitution is performed. -/
def env_filter_directive (level pkg : String) (binOpt : Option String) : String :=
  let bin := binOpt.getD pkg
  if pkg = bin then pkg ++ "=" ++ level
  else pkg ++ "=" ++ level ++ "," ++ bin ++ "=" ++ level

/-- The deprecated crate_env! macro of src/src/lib.rs: always the two-clause
form, with every dash replaced by an underscore in both names. -/
def crate_env (level pkg bin : String) : String :=
  replaceDash pkg ++ "=" ++ level ++ "," ++ replaceDash bin ++ "=" ++ level

/-- Sample environment: RUST_LOG unset, only the directive string info
grammatical, journald reachable, every file openable. -/
def envUnset : LibEnv :=
  { rustLog := none, valid := fun s => s == "info",
    journaldAvailable := true, fileOpenable := fun _ => true }

/-- Sample environment with RUST_LOG set to a grammatical directive. -/
def envSetValid : LibEnv :=
  { rustLog := some "warn", valid := fun s => s == "warn" || s == "info",
    journaldAvailable := true, fileOpenable := fun _ => true }

/-- Sample environment with RUST_LOG set to a rejected directive. -/
def envSetInvalid : LibEnv :=
  { rustLog := some "bogus", valid := fun s => s == "info",
    journaldAvailable := true, fileOpenable := fun _ => true }

/-- Sample environment where journald is unreachable and no file opens. -/
def envNoSinks : LibEnv :=
  { rustLog := none, valid := fun s => s == "info",
    journaldAvailable := false, fileOpenable := fun _ => false }

/-- C1 counterexample: at level info with package and binary both the
dashed name my-crate, env_filter_directive yields my-crate=info, not the
claimed dash-substituted my_crate=info; and the deprecated crate_env!
yields the two-clause my_crate=info,my_crate=info instead of the claimed
single clause. -/
theorem env_filter_directive_no_dash_substitution :
    env_filter_directive "info" "my-crate" (some "my-crate") = "my-crate=info" ∧
    "my-crate=info" ≠ "my_crate=info" ∧
    crate_env "info" "my-crate" "my-crate" = "my_crate=info,my_crate=info" ∧
    "my_crate=info,my_crate=info" ≠ "my_crate=info" := by
  refine ⟨by decide, by decide, by decide, by decide⟩

/-- C1 (amended): env_filter_directive performs no dash substitution: with
bin defaulting to pkg when CARGO_BIN_NAME is unset, it yields pkg=level
when the two names are equal and pkg=level,bin=level otherwise; the
deprecated crate_env! does substitute every dash by an underscore but
always yields the two-clause form, even when the names coincide. -/
theorem directive_macros_behavior (level pkg bin : String) :
    (env_filter_directive level pkg none = pkg ++ "=" ++ level) ∧
    (pkg = bin → env_filter_directive level pkg (some bin) = pkg ++ "=" ++ level) ∧
    (pkg ≠ bin →
      env_filter_directive level pkg (some bin)
        = pkg ++ "=" ++ level ++ "," ++ bin ++ "=" ++ level) ∧
    (crate_env level pkg pkg
        = replaceDash pkg ++ "=" ++ level ++ "," ++ replaceDash pkg ++ "=" ++ level) := by
  refine ⟨?_, ?_, ?_, rfl⟩
  · simp [env_filter_directive]
  · intro h
    simp [env_filter_directive, h]
  · intro h
    simp [env_filter_directive, Option.getD, h]

/-- C1 witness: the amended theorem applied at concrete unequal names. -/
theorem directive_macros_behavior_witness :
    env_filter_directive "debug" "my-crate" (some "my-bin")
      = "my-crate" ++ "=" ++ "debug" ++ "," ++ "my-bin" ++ "=" ++ "debug" :=
  (directive_macros_behavior "debug" "my-crate" "my-bin").2.2.1 (by decide)

/-- C2: filter resolution — both env_filter_with_default and the inline
resolution of init_logging — uses the RUST_LOG directive whenever the
variable is set to a grammatical directive, and parses the caller-supplied
default whenever the variable is unset or its value is rejected. -/
theorem resolve_filter_precedence (E : LibEnv) (s d : String) :
    (E.rustLog = some s → E.valid s = true →
      env_filter_with_default E d = ⟨s⟩ ∧
      resolveEnvFilter E d = .ok ⟨s⟩) ∧
    (E.rustLog = none → E.valid d = true →
      env_filter_with_default E d = ⟨d⟩ ∧
      resolveEnvFilter E d = .ok ⟨d⟩) ∧
    (E.rustLog = some s → E.valid s = false → E.valid d = true →
      env_filter_with_default E d = ⟨d⟩ ∧
      resolveEnvFilter E d = .ok ⟨d⟩) := by
  refine ⟨?_, ?_, ?_⟩ <;> intros <;>
    simp_all [env_filter_with_default, resolveEnvFilter, try_from_default_env,
      envFilterNew, envFilterParse]

/-- C2 witness: the three branches at concrete environments. -/
theorem resolve_filter_precedence_witness :
    env_filter_with_default envSetValid "info" = ⟨"warn"⟩ ∧
    env_filter_with_default envUnset "info" = ⟨"info"⟩ ∧
    env_filter_with_default envSetInvalid "info" = ⟨"info"⟩ :=
  ⟨((resolve_filter_precedence envSetValid "warn" "info").1 rfl (by decide)).1,
   ((resolve_filter_precedence envUnset "" "info").2.1 rfl (by decide)).1,
   ((resolve_filter_precedence envSetInvalid "bogus" "info").2.2 rfl (by decide) (by decide)).1⟩

/-- C3 counterexample: when journald-layer construction fails, with_journald
aborts (panics through the unwrap) instead of returning a typed error to
the caller. -/
theorem with_journald_panics_on_unavailable :
    (with_journald envNoSinks []).isPanic = true := by decide

/-- C3 (amended): in the composable path sink unavailability still aborts:
with_journald unwraps the journald-layer Result and panics on failure, and
FileMakeWriter::make_writer — the writer used by with_file — panics when
the file cannot be opened; no typed error reaches the caller. -/
theorem composable_sink_failures_panic (E : LibEnv) (b : Backend) (w : FileMakeWriter)
    (hj : E.journaldAvailable = false) (hf : E.fileOpenable w.path = false) :
    (with_journald E b).isPanic = true ∧
    (FileMakeWriter.make_writer E w).isPanic = true := by
  constructor
  · simp [with_journald, tracing_journald_layer, hj, PanicOr.isPanic]
  · simp [FileMakeWriter.make_writer, hf, PanicOr.isPanic]

/-- C3 witness: the amended theorem at a concrete failing environment. -/
theorem composable_sink_failures_panic_witness :
    (with_journald envNoSinks []).isPanic = true ∧
    (FileMakeWriter.make_writer envNoSinks { path := "app.log" }).isPanic = true :=
  composable_sink_failures_panic envNoSinks [] { path := "app.log" } rfl rfl

/-- C4: init_logging with the single-entry outputs list journald builds a
backend whose only layer is the journald writer: the base stderr sink is
discarded and no filter layer is attached. -/
theorem journal_only_output_no_stderr (E : LibEnv) (env : String) (f : EnvFilter)
    (h1 : resolveEnvFilter E env = .ok f) (h2 : E.journaldAvailable = true) :
    init_logging E none [some "journald"] env = .ok [Layer.journald] ∧
    hasStderrSink [Layer.journald] = false := by
  constructor
  · simp [init_logging, h1, tracing_journald_layer, h2, installOrPanic,
      set_global_default]
  · rfl

/-- C4 witness: the theorem at a concrete environment and default. -/
theorem journal_only_output_no_stderr_witness :
    init_logging envUnset none [some "journald"] "info" = .ok [Layer.journald] ∧
    hasStderrSink [Layer.journald] = false :=
  journal_only_output_no_stderr envUnset "info" ⟨"info"⟩ (by decide) rfl

/-- C5: global installation is one-shot: a first try_init into the empty
slot succeeds and fills it with the composed backend; every attempt on an
occupied slot returns the typed AlreadyInstalledError outcome and leaves
the installed backend unchanged. -/
theorem install_one_shot (E E' : LibEnv) (d d' : String) :
    try_init E none d = (some (try_init_backend E d), .ok ()) ∧
    ∀ b0 : Backend, try_init E' (some b0) d'
      = (some b0, .error TryInitError.alreadyInstalled) :=
  ⟨rfl, fun _ => rfl⟩

/-- C6 counterexample: with RUST_LOG unset and a default the grammar
rejects, env_filter_with_default does not fail: it silently yields the
degraded default filter produced by the lossy EnvFilter::new. -/
theorem env_filter_with_default_silent_fallback :
    env_filter_with_default envUnset "bogus" = ⟨""⟩ := by decide

/-- C6 (amended): when RUST_LOG yields no filter and the default directive
is rejected, the resolution inside init_logging panics — fatal, as claimed
— but env_filter_with_default instead silently falls back to the lossy
EnvFilter::new, yielding the degraded empty filter rather than failing. -/
theorem invalid_default_resolution_behavior (E : LibEnv) (d : String)
    (h1 : try_from_default_env E = none) (h2 : E.valid d = false) :
    resolveEnvFilter E d = .panic "invalid filter directive" ∧
    env_filter_with_default E d = ⟨""⟩ := by
  constructor
  · simp [resolveEnvFilter, h1, envFilterParse, h2]
  · simp [env_filter_with_default, h1, envFilterNew, h2]

/-- C6 witness: the amended theorem at a concrete environment and default. -/
theorem invalid_default_resolution_behavior_witness :
    resolveEnvFilter envUnset "bogus" = .panic "invalid filter directive" ∧
    env_filter_with_default envUnset "bogus" = ⟨""⟩ :=
  invalid_default_resolution_behavior envUnset "bogus" (by decide) (by decide)

/-- C7: init_logging panics — so nothing is built or installed — for every
two-entry outputs list whose first entry is present and for every outputs
list of three or more entries. -/
theorem invalid_output_shapes_panic (E : LibEnv) (slot : Option Backend)
    (env : String) (outs : List (Option String))
    (h : (∃ x o1, outs = [some x, o1]) ∨ 3 ≤ outs.length) :
    (init_logging E slot outs env).isPanic = true := by
  rcases h with ⟨x, o1, rfl⟩ | h3
  · cases hr : resolveEnvFilter E env with
    | panic m => simp [init_logging, hr, PanicOr.isPanic]
    | ok f => cases o1 <;> simp [init_logging, hr, PanicOr.isPanic]
  · cases outs with
    | nil => simp at h3
    | cons a t1 =>
      cases t1 with
      | nil => simp at h3
      | cons b t2 =>
        cases t2 with
        | nil => simp at h3
        | cons c t3 =>
          cases hr : resolveEnvFilter E env <;>
            simp [init_logging, hr, PanicOr.isPanic]

/-- C7 witness: a bad two-entry shape and a three-entry list both panic. -/
theorem invalid_output_shapes_panic_witness :
    (init_logging envUnset none [some "app.log", none] "info").isPanic = true ∧
    (init_logging envUnset none [none, none, none] "info").isPanic = true :=
  ⟨invalid_output_shapes_panic envUnset none "info" [some "app.log", none]
      (Or.inl ⟨"app.log", none, rfl⟩),
   invalid_output_shapes_panic envUnset none "info" [none, none, none]
      (Or.inr (by decide))⟩

/-- C8: init_logging with the two-entry outputs list holding an absent
descriptor and a file path builds a backend with both the filtered stderr
sink and a file sink for the path, ansi disabled on the file sink and no
filter of its own, the file opened with append and create set and truncate
unset. -/
theorem stderr_plus_file_backend (E : LibEnv) (env p : String) (f : EnvFilter)
    (h1 : resolveEnvFilter E env = .ok f) (hp : ¬p = "journald")
    (hf : E.fileOpenable p = true) :
    init_logging E none [none, some p] env
      = .ok [Layer.fmtStderr true (some f), Layer.fmtFile p appendOpts false none] ∧
    appendOpts.append = true ∧ appendOpts.create = true ∧
    appendOpts.truncate = false := by
  refine ⟨?_, rfl, rfl, rfl⟩
  simp [init_logging, h1, hp, file_appender, hf, installOrPanic, set_global_default]

/-- C8 witness: the theorem at a concrete path and environment. -/
theorem stderr_plus_file_backend_witness :
    init_logging envUnset none [none, some "app.log"] "info"
      = .ok [Layer.fmtStderr true (some ⟨"info"⟩),
             Layer.fmtFile "app.log" appendOpts false none] ∧
    appendOpts.append = true ∧ appendOpts.create = true ∧
    appendOpts.truncate = false :=
  stderr_plus_file_backend envUnset "info" "app.log" ⟨"info"⟩ (by decide) (by decide) rfl

/-- C9: init_logging with the empty outputs list and with the single-entry
list holding one absent descriptor are the same function of the
environment, slot and default: the same filtered stderr backend, or the
same panic. -/
theorem empty_and_single_none_equivalent (E : LibEnv) (slot : Option Backend)
    (env : String) :
    init_logging E slot [] env = init_logging E slot [none] env := by
  cases hr : resolveEnvFilter E env <;> simp [init_logging, hr]

/-- C10: init_logging resolves the filter before branching on the outputs
list: with RUST_LOG unset and a rejected default it panics for every
outputs list, including the single-entry journald request whose backend
would discard the filter entirely. -/
theorem filter_resolved_before_branching (E : LibEnv) (slot : Option Backend)
    (outs : List (Option String)) (env : String)
    (h1 : E.rustLog = none) (h2 : E.valid env = false) :
    init_logging E slot outs env = .panic "invalid filter directive" := by
  have hr : resolveEnvFilter E env = .panic "invalid filter directive" := by
    simp [resolveEnvFilter, try_from_default_env, h1, envFilterParse, h2]
  simp [init_logging, hr]

/-- C10 witness: the journald request fails on an unparseable default. -/
theorem filter_resolved_before_branching_witness :
    init_logging envUnset none [some "journald"] "bogus"
      = .panic "invalid filter directive" :=
  filter_resolved_before_branching envUnset none [some "journald"] "bogus" rfl (by decide)
